import Mathlib

/-!
Shallow embedding of the devconnector route handlers
(`src/routes/api/posts.js` and the profile route file) and proofs of the
specification claims about them.

JavaScript arrays are modelled as Lean lists, Mongo ObjectIds and their
`toString()` images as `String`, and each route handler as a pure function
from the loaded document state and the request parameters to the response
it sends together with the document state it persists with `save()`.
-/

namespace DevConnector

/-! ### JavaScript array primitives used by the handlers -/

/-- Index of the first occurrence of `x`, tracked as an option;
the basis of JavaScript `Array.prototype.indexOf`. -/
def firstIdx? [BEq α] (x : α) : List α → Option Nat
  | [] => none
  | y :: ys => if y == x then some 0 else (firstIdx? x ys).map (· + 1)

/-- JavaScript `Array.prototype.indexOf`: the index of the first occurrence
of `x`, or `-1` when `x` does not occur. -/
def jsIndexOf [BEq α] (l : List α) (x : α) : Int :=
  match firstIdx? x l with
  | some i => (i : Int)
  | none => -1

/-- JavaScript `Array.prototype.splice(start, 1)`: a negative `start` counts
from the end of the array (clamped at 0), a `start` past the end deletes
nothing, and otherwise the single element at `start` is removed.  Returns the
array after the removal. -/
def spliceOne (l : List α) (start : Int) : List α :=
  let len : Int := (l.length : Int)
  let actual : Nat := (if start < 0 then max (len + start) 0 else min start len).toNat
  l.take actual ++ l.drop (actual + 1)

theorem spliceOne_ofNat (l : List α) (n : Nat) :
    spliceOne l (n : Int) = l.eraseIdx n := by
  unfold spliceOne
  have hnonneg : ¬ ((n : Int) < 0) := by omega
  simp only [hnonneg, if_false]
  have hmin : ((min (n : Int) (l.length : Int)).toNat) = min n l.length := by
    omega
  rw [hmin, List.eraseIdx_eq_take_drop_succ]
  rcases Nat.le_total n l.length with h | h
  · rw [Nat.min_eq_left h]
  · rw [Nat.min_eq_right h, List.take_of_length_le h, List.take_of_length_le (by omega),
      List.drop_of_length_le (by omega), List.drop_of_length_le (by omega)]

theorem spliceOne_negOne (l : List α) : spliceOne l (-1) = l.dropLast := by
  unfold spliceOne
  have h : (-1 : Int) < 0 := by omega
  simp only [h, if_true]
  have hmax : ((max ((l.length : Int) + -1) 0).toNat) = l.length - 1 := by omega
  rw [hmax, List.dropLast_eq_take]
  rcases l with _ | ⟨a, l⟩
  · rfl
  · simp [List.drop_of_length_le]

theorem firstIdx?_eq_none [BEq α] [LawfulBEq α] (x : α) (l : List α)
    (h : x ∉ l) : firstIdx? x l = none := by
  induction l with
  | nil => rfl
  | cons y ys ih =>
    simp only [List.mem_cons, not_or] at h
    have hne : (y == x) = false := by
      simp [beq_eq_false_iff_ne]
      exact fun he => h.1 he.symm
    simp [firstIdx?, hne, ih h.2]

theorem firstIdx?_isSome [BEq α] [LawfulBEq α] (x : α) (l : List α)
    (h : x ∈ l) : (firstIdx? x l).isSome := by
  induction l with
  | nil => simp at h
  | cons y ys ih =>
    by_cases he : y == x
    · simp [firstIdx?, he]
    · rcases List.mem_cons.mp h with h1 | h1
      · exact absurd (by simp [h1]) he
      · simp only [firstIdx?, he, if_false]
        rcases Option.isSome_iff_exists.mp (ih h1) with ⟨i, hi⟩
        simp [hi]

/-- When `x` does not occur, `indexOf` returns `-1` and `splice(-1, 1)`
removes the last element of the array. -/
theorem spliceOne_jsIndexOf_not_mem [BEq α] [LawfulBEq α]
    (l : List α) (x : α) (h : x ∉ l) :
    spliceOne l (jsIndexOf l x) = l.dropLast := by
  rw [jsIndexOf, firstIdx?_eq_none x l h, spliceOne_negOne]

/-- When `c` occurs among the images `f a` of the elements, locating the index
of `c` in the mapped array and splicing it out removes exactly the first
element whose image equals `c`. -/
theorem spliceOne_jsIndexOf_map (f : α → String) (l : List α) (c : String)
    (h : c ∈ l.map f) :
    spliceOne l (jsIndexOf (l.map f) c) = l.eraseP (fun a => f a == c) := by
  induction l with
  | nil => simp at h
  | cons y ys ih =>
    by_cases he : f y == c
    · simp only [jsIndexOf, List.map_cons, firstIdx?, he, if_true]
      rw [show ((0 : Nat) : Int) = ((0 : Nat) : Int) from rfl, spliceOne_ofNat]
      simp [List.eraseP_cons, he]
    · have hc : c ∈ ys.map f := by
        rcases List.mem_cons.mp h with h1 | h1
        · exact absurd (by simp [h1]) he
        · exact h1
      rcases Option.isSome_iff_exists.mp (firstIdx?_isSome c (ys.map f) hc) with ⟨i, hi⟩
      have hidx : jsIndexOf ((y :: ys).map f) c = ((i + 1 : Nat) : Int) := by
        simp [jsIndexOf, firstIdx?, he, hi]
      have hidx' : jsIndexOf (ys.map f) c = ((i : Nat) : Int) := by
        simp [jsIndexOf, hi]
      rw [hidx, spliceOne_ofNat, List.eraseIdx_cons_succ, List.eraseP_cons]
      simp only [he, cond_false]
      rw [← spliceOne_ofNat, ← hidx', ih hc]

/-- Erasing the first element whose image is `c` coincides with filtering out
every element whose image is `c` when the images are pairwise distinct. -/
theorem eraseP_eq_filter_of_nodup (f : α → String) (l : List α) (c : String)
    (h : (l.map f).Nodup) :
    l.eraseP (fun a => f a == c) = l.filter (fun a => f a != c) := by
  induction l with
  | nil => rfl
  | cons y ys ih =>
    simp only [List.map_cons, List.nodup_cons] at h
    by_cases he : f y == c
    · have hc : c ∉ ys.map f := by
        have : f y = c := by simpa using he
        rw [← this]; exact h.1
      have hfilter : ys.filter (fun a => f a != c) = ys := by
        apply List.filter_eq_self.mpr
        intro a ha
        simp only [bne_iff_ne, ne_eq, decide_eq_true_eq]
        intro hac
        exact hc (by rw [← hac]; exact List.mem_map_of_mem f ha)
      have hyc : f y = c := by simpa using he
      simp [List.eraseP_cons, List.filter_cons, he, hyc, hfilter]
    · have hyc : ¬ f y = c := by simpa using he
      simp [List.eraseP_cons, List.filter_cons, he, hyc, ih h.2]

/-! ### Post data model (`models/Post` as used by `src/routes/api/posts.js`) -/

/-- An entry of a post's `likes` array: `{ user: <ObjectId> }`. -/
structure Like where
  user : String
  deriving DecidableEq

/-- An entry of a post's `comments` array: user reference, text and the
name/avatar snapshot, with the subdocument id `comment.id`. -/
structure Comment where
  id : String
  user : String
  text : String
  name : String
  avatar : String
  deriving DecidableEq

/-- A post document: author reference `user`, text, name/avatar snapshot,
and the embedded `likes` and `comments` arrays. -/
structure Post where
  id : String
  user : String
  text : String
  name : String
  avatar : String
  likes : List Like
  comments : List Comment
  deriving DecidableEq

/-- Responses sent by the like/unlike handlers on their normal path:
`res.status(400).json({ msg })`, or `res.json(post.likes)` — the likes
array alone, not the whole post. -/
inductive LikesResp where
  | badRequest (msg : String)
  | likesList (likes : List Like)
  deriving DecidableEq

/-- `PUT api/posts/like/:id` after `Post.findById` returned the post:
reject with 400 `'Post already liked'` when the caller already occurs in
`post.likes`, otherwise `unshift` a like entry for the caller, `save()`, and
respond with the updated likes array.  Returns the response together with the
post state persisted (unchanged when the request was rejected). -/
def likeRoute (post : Post) (caller : String) : LikesResp × Post :=
  if 0 < (post.likes.filter (fun like => like.user == caller)).length then
    (.badRequest "Post already liked", post)
  else
    let post' := { post with likes := { user := caller } :: post.likes }
    (.likesList post'.likes, post')

/-- `PUT api/posts/unlike/:id` after `Post.findById` returned the post:
reject with 400 `'Post has not yet been liked'` when the caller does not occur
in `post.likes`, otherwise `splice` out the entry at
`post.likes.map(like => like.user.toString()).indexOf(req.user.id)`, `save()`,
and respond with the updated likes array. -/
def unlikeRoute (post : Post) (caller : String) : LikesResp × Post :=
  if (post.likes.filter (fun like => like.user == caller)).length == 0 then
    (.badRequest "Post has not yet been liked", post)
  else
    let removeIndex := jsIndexOf (post.likes.map (fun like => like.user)) caller
    let post' := { post with likes := spliceOne post.likes removeIndex }
    (.likesList post'.likes, post')

/-- `POST api/posts`: a newly created post has empty `likes` and `comments`. -/
def createPost (id caller text name avatar : String) : Post :=
  { id := id, user := caller, text := text, name := name, avatar := avatar,
    likes := [], comments := [] }

/-- Post states reachable from post creation through like and unlike steps
(each step persists the second component of the handler's result). -/
inductive LikesReachable : Post → Prop where
  | created (id caller text name avatar : String) :
      LikesReachable (createPost id caller text name avatar)
  | like (post : Post) (caller : String) :
      LikesReachable post → LikesReachable (likeRoute post caller).2
  | unlike (post : Post) (caller : String) :
      LikesReachable post → LikesReachable (unlikeRoute post caller).2

theorem take_append_drop_succ_sublist (l : List α) (n : Nat) :
    List.Sublist (l.take n ++ l.drop (n + 1)) l := by
  conv_rhs => rw [← List.take_append_drop n l]
  apply List.Sublist.append_left
  have h := List.drop_sublist 1 (l.drop n)
  simpa [List.drop_drop, Nat.add_comm] using h

theorem spliceOne_sublist (l : List α) (s : Int) : List.Sublist (spliceOne l s) l := by
  unfold spliceOne
  exact take_append_drop_succ_sublist l _

theorem filter_user_length_pos_iff (likes : List Like) (caller : String) :
    0 < (likes.filter (fun like => like.user == caller)).length ↔
      ∃ like ∈ likes, like.user = caller := by
  rw [List.length_pos_iff_exists_mem]
  constructor
  · rintro ⟨like, hlike⟩
    rw [List.mem_filter] at hlike
    exact ⟨like, hlike.1, by simpa using hlike.2⟩
  · rintro ⟨like, hmem, heq⟩
    exact ⟨like, List.mem_filter.mpr ⟨hmem, by simp [heq]⟩⟩

/-- C3: for every reachable post state, each user appears at most once in the
post's likes: the like handler refuses a caller already present and otherwise
prepends a fresh entry, the unlike handler only ever splices an entry out, so
every like/unlike step preserves per-user uniqueness of `likes`, starting from
the empty likes array of a newly created post. -/
theorem likes_user_unique_of_reachable (post : Post)
    (h : LikesReachable post) : (post.likes.map Like.user).Nodup := by
  induction h with
  | created id caller text name avatar =>
    simp [createPost]
  | like post caller hr ih =>
    by_cases hc : 0 < (post.likes.filter (fun like => like.user == caller)).length
    · simpa [likeRoute, hc] using ih
    · have hnot : caller ∉ post.likes.map Like.user := by
        intro hmem
        apply hc
        rw [filter_user_length_pos_iff]
        rcases List.mem_map.mp hmem with ⟨like, hl, he⟩
        exact ⟨like, hl, he⟩
      simp only [likeRoute, hc, if_false, List.map_cons, List.nodup_cons]
      exact ⟨hnot, ih⟩
  | unlike post caller hr ih =>
    by_cases hc : (post.likes.filter (fun like => like.user == caller)).length = 0
    · simpa [unlikeRoute, hc] using ih
    · have hc' : ((post.likes.filter (fun like => like.user == caller)).length == 0) = false := by
        simpa using hc
      simp only [unlikeRoute, hc', Bool.false_eq_true, if_false]
      exact ih.sublist (List.Sublist.map Like.user (spliceOne_sublist _ _))

/-- Witness for C3: a concrete reachable state (create, then two likes by
distinct users, then an unlike) has pairwise-distinct like users. -/
theorem likes_user_unique_of_reachable_witness :
    (((unlikeRoute ((likeRoute ((likeRoute
        (createPost "p1" "u0" "hello" "n" "a") "u1").2) "u2").2) "u1").2).likes.map
          Like.user).Nodup :=
  likes_user_unique_of_reachable _
    (LikesReachable.unlike _ "u1"
      (LikesReachable.like _ "u2"
        (LikesReachable.like _ "u1"
          (LikesReachable.created "p1" "u0" "hello" "n" "a"))))

/-- C4: a like request by a user already present among the post's likes is
rejected with 400 `'Post already liked'` and the likes array keeps its length;
otherwise the handler prepends a like entry for the caller and responds with
the updated likes array (not the whole post). -/
theorem like_route_spec (post : Post) (caller : String) :
    ((∃ like ∈ post.likes, like.user = caller) →
      likeRoute post caller = (.badRequest "Post already liked", post) ∧
      (likeRoute post caller).2.likes.length = post.likes.length) ∧
    ((∀ like ∈ post.likes, like.user ≠ caller) →
      likeRoute post caller =
        (.likesList ({ user := caller } :: post.likes),
          { post with likes := { user := caller } :: post.likes })) := by
  constructor
  · intro hmem
    have hc : 0 < (post.likes.filter (fun like => like.user == caller)).length :=
      (filter_user_length_pos_iff post.likes caller).mpr hmem
    simp [likeRoute, hc]
  · intro habs
    have hc : ¬ 0 < (post.likes.filter (fun like => like.user == caller)).length := by
      rw [filter_user_length_pos_iff]
      rintro ⟨like, hmem, heq⟩
      exact habs like hmem heq
    simp [likeRoute, hc]

/-- Witness for C4: with likes `[{user := "u1"}]`, a second like by `"u1"` is
rejected with 400 `'Post already liked'` and a like by `"u2"` prepends. -/
theorem like_route_spec_witness :
    likeRoute { createPost "p1" "u0" "t" "n" "a" with likes := [{ user := "u1" }] } "u1" =
      (.badRequest "Post already liked",
        { createPost "p1" "u0" "t" "n" "a" with likes := [{ user := "u1" }] }) ∧
    likeRoute { createPost "p1" "u0" "t" "n" "a" with likes := [{ user := "u1" }] } "u2" =
      (.likesList [{ user := "u2" }, { user := "u1" }],
        { createPost "p1" "u0" "t" "n" "a" with
            likes := [{ user := "u2" }, { user := "u1" }] }) := by
  refine ⟨((like_route_spec _ "u1").1 ⟨{ user := "u1" }, by simp, rfl⟩).1, ?_⟩
  exact (like_route_spec _ "u2").2 (by intro like hmem; simp at hmem; simp [hmem])

/-- C5: an unlike request by a user absent from the post's likes is rejected
with 400 `'Post has not yet been liked'` and nothing changes; for a present
caller the handler splices out the first entry whose user equals the caller —
under the per-user uniqueness invariant this is exactly the caller's entry —
persists the post, and responds with the updated likes array. -/
theorem unlike_route_spec (post : Post) (caller : String) :
    ((∀ like ∈ post.likes, like.user ≠ caller) →
      unlikeRoute post caller = (.badRequest "Post has not yet been liked", post)) ∧
    ((∃ like ∈ post.likes, like.user = caller) →
      (unlikeRoute post caller).2 =
        { post with likes := post.likes.eraseP (fun like => like.user == caller) } ∧
      (unlikeRoute post caller).1 = .likesList (unlikeRoute post caller).2.likes ∧
      ((post.likes.map Like.user).Nodup →
        (unlikeRoute post caller).2.likes =
          post.likes.filter (fun like => like.user != caller))) := by
  constructor
  · intro habs
    have hc : (post.likes.filter (fun like => like.user == caller)).length = 0 := by
      by_contra hne
      have : 0 < (post.likes.filter (fun like => like.user == caller)).length :=
        Nat.pos_of_ne_zero hne
      rcases (filter_user_length_pos_iff post.likes caller).mp this with ⟨like, hmem, heq⟩
      exact habs like hmem heq
    simp [unlikeRoute, hc]
  · intro hmem
    have hc : (post.likes.filter (fun like => like.user == caller)).length ≠ 0 := by
      have : 0 < (post.likes.filter (fun like => like.user == caller)).length :=
        (filter_user_length_pos_iff post.likes caller).mpr hmem
      omega
    have hc' : ((post.likes.filter (fun like => like.user == caller)).length == 0) = false := by
      simpa using hc
    have hmem' : caller ∈ post.likes.map Like.user := by
      rcases hmem with ⟨like, hl, he⟩
      exact he ▸ List.mem_map_of_mem Like.user hl
    have herase := spliceOne_jsIndexOf_map Like.user post.likes caller hmem'
    refine ⟨?_, ?_, ?_⟩
    · simp only [unlikeRoute, hc', Bool.false_eq_true, if_false]
      rw [herase]
    · simp [unlikeRoute, hc']
    · intro hnodup
      simp only [unlikeRoute, hc', Bool.false_eq_true, if_false]
      rw [herase, eraseP_eq_filter_of_nodup Like.user post.likes caller hnodup]

/-- Witness for C5: unliking a post whose likes are `[{user := "u1"}]` as
`"u2"` is rejected with 400 `'Post has not yet been liked'`; as `"u1"` it
removes exactly that entry and responds with the empty likes array. -/
theorem unlike_route_spec_witness :
    unlikeRoute { createPost "p1" "u0" "t" "n" "a" with likes := [{ user := "u1" }] } "u2" =
      (.badRequest "Post has not yet been liked",
        { createPost "p1" "u0" "t" "n" "a" with likes := [{ user := "u1" }] }) ∧
    (unlikeRoute { createPost "p1" "u0" "t" "n" "a" with likes := [{ user := "u1" }] } "u1").2.likes =
      [] := by
  constructor
  · exact (unlike_route_spec _ "u2").1 (by intro like hmem; simp at hmem; simp [hmem])
  · have h := ((unlike_route_spec
      { createPost "p1" "u0" "t" "n" "a" with likes := [{ user := "u1" }] } "u1").2
        ⟨{ user := "u1" }, by simp, rfl⟩).2.2 (by simp)
    rw [h]
    rfl

/-! ### Profile data model and the experience/education removal routes -/

/-- An entry of a profile's `experience` array, with its subdocument id. -/
structure Experience where
  id : String
  title : String
  company : String
  location : Option String
  «from» : String
  «to» : Option String
  current : Option Bool
  description : Option String
  deriving DecidableEq

/-- An entry of a profile's `education` array, with its subdocument id. -/
structure Education where
  id : String
  school : String
  degree : String
  fieldofstudy : String
  «from» : String
  «to» : Option String
  current : Option Bool
  description : Option String
  deriving DecidableEq

/-- A profile document as used by the removal and lookup routes: the owning
user reference and the embedded `experience` and `education` arrays. -/
structure Profile where
  user : String
  experience : List Experience
  education : List Education
  deriving DecidableEq

/-- `DELETE api/profile/experience/:exp_id` after `Profile.findOne` returned
the caller's profile: compute
`profile.experience.map(item => item.id).indexOf(req.params.exp_id)`, splice
that index out of `experience`, `save()`, and respond 200 with the saved
profile (`res.json(profile)`). -/
def deleteExperienceRoute (profile : Profile) (exp_id : String) : Profile :=
  let removeIndex := jsIndexOf (profile.experience.map (fun item => item.id)) exp_id
  { profile with experience := spliceOne profile.experience removeIndex }

/-- `DELETE api/profile/education/:edu_id` after `Profile.findOne` returned
the caller's profile: compute
`profile.education.map(item => item.id).indexOf(req.params.edu_id)`, splice
that index out of `education`, `save()`, and respond 200 with the saved
profile (`res.json(profile)`). -/
def deleteEducationRoute (profile : Profile) (edu_id : String) : Profile :=
  let removeIndex := jsIndexOf (profile.education.map (fun item => item.id)) edu_id
  { profile with education := spliceOne profile.education removeIndex }

/-- C1 counterexample: removing an identifier that matches no experience entry
does not leave the list unchanged — `indexOf` returns `-1` and
`splice(-1, 1)` deletes the last entry.  On a profile with experience entries
`e1, e2` and the unmatched id `"zzz"`, the persisted experience list is
`[e1]`, not `[e1, e2]`. -/
theorem delete_experience_not_found_counterexample :
    (deleteExperienceRoute
        { user := "u1",
          experience := [⟨"e1", "t1", "c1", none, "2020", none, none, none⟩,
                         ⟨"e2", "t2", "c2", none, "2021", none, none, none⟩],
          education := [] } "zzz").experience =
      [⟨"e1", "t1", "c1", none, "2020", none, none, none⟩] ∧
    (deleteExperienceRoute
        { user := "u1",
          experience := [⟨"e1", "t1", "c1", none, "2020", none, none, none⟩,
                         ⟨"e2", "t2", "c2", none, "2021", none, none, none⟩],
          education := [] } "zzz").experience ≠
      [⟨"e1", "t1", "c1", none, "2020", none, none, none⟩,
       ⟨"e2", "t2", "c2", none, "2021", none, none, none⟩] := by
  constructor
  · rfl
  · decide

/-- C1 amended: for an identifier matching no experience (education) entry,
the removal handler removes the last entry of the list (a no-op only when the
list is already empty), still persists the profile, and responds 200 with the
changed profile. -/
theorem delete_experience_education_not_found (profile : Profile)
    (exp_id edu_id : String)
    (hexp : exp_id ∉ profile.experience.map Experience.id)
    (hedu : edu_id ∉ profile.education.map Education.id) :
    deleteExperienceRoute profile exp_id =
      { profile with experience := profile.experience.dropLast } ∧
    deleteEducationRoute profile edu_id =
      { profile with education := profile.education.dropLast } := by
  constructor
  · unfold deleteExperienceRoute jsIndexOf
    rw [firstIdx?_eq_none exp_id _ hexp]
    simp [spliceOne_negOne]
  · unfold deleteEducationRoute jsIndexOf
    rw [firstIdx?_eq_none edu_id _ hedu]
    simp [spliceOne_negOne]

/-- Witness for the amended C1: removing unmatched ids from a profile with two
experience entries and one education entry drops the last entry of each
list. -/
theorem delete_experience_education_not_found_witness :
    deleteExperienceRoute
        { user := "u1",
          experience := [⟨"e1", "t1", "c1", none, "2020", none, none, none⟩,
                         ⟨"e2", "t2", "c2", none, "2021", none, none, none⟩],
          education := [⟨"d1", "s1", "g1", "f1", "2019", none, none, none⟩] } "zzz" =
      { user := "u1",
        experience := [⟨"e1", "t1", "c1", none, "2020", none, none, none⟩],
        education := [⟨"d1", "s1", "g1", "f1", "2019", none, none, none⟩] } ∧
    deleteEducationRoute
        { user := "u1",
          experience := [⟨"e1", "t1", "c1", none, "2020", none, none, none⟩,
                         ⟨"e2", "t2", "c2", none, "2021", none, none, none⟩],
          education := [⟨"d1", "s1", "g1", "f1", "2019", none, none, none⟩] } "www" =
      { user := "u1",
        experience := [⟨"e1", "t1", "c1", none, "2020", none, none, none⟩,
                       ⟨"e2", "t2", "c2", none, "2021", none, none, none⟩],
        education := [] } := by
  have h := delete_experience_education_not_found
    { user := "u1",
      experience := [⟨"e1", "t1", "c1", none, "2020", none, none, none⟩,
                     ⟨"e2", "t2", "c2", none, "2021", none, none, none⟩],
      education := [⟨"d1", "s1", "g1", "f1", "2019", none, none, none⟩] }
    "zzz" "www" (by decide) (by decide)
  exact h

/-! ### Comment deletion (`DELETE api/posts/comment/:id/:comment_id`) -/

/-- Responses sent by the comment-deletion handler: a status code with a
message, or `res.json(post.comments)` — the updated comments array. -/
inductive CommentsResp where
  | err (status : Nat) (msg : String)
  | commentsList (comments : List Comment)
  deriving DecidableEq

/-- `DELETE api/posts/comment/:id/:comment_id` after `Post.findById` returned
the post: find the comment whose `id` equals `req.params.comment_id`
(404 `'Comment does not exist'` when absent), reject with
401 `'User is not authorized'` when the caller is not that comment's author,
and otherwise splice out the index
`post.comments.map(comment => comment.user.toString()).indexOf(req.user.id)`
— the index of the caller's first comment, not of the identified comment
— `save()`, and respond with the updated comments array. -/
def deleteCommentRoute (post : Post) (caller : String) (comment_id : String) :
    CommentsResp × Post :=
  match post.comments.find? (fun comment => comment.id == comment_id) with
  | none => (.err 404 "Comment does not exist", post)
  | some comment =>
    if comment.user != caller then (.err 401 "User is not authorized", post)
    else
      let removeIndex := jsIndexOf (post.comments.map (fun comment => comment.user)) caller
      let post' := { post with comments := spliceOne post.comments removeIndex }
      (.commentsList post'.comments, post')

/-- C2 at the failing input: a post holds comments `c1` (id `"a"`) and `c2`
(id `"b"`), both authored by `"u1"`.  Deleting comment `"b"` as `"u1"` passes
the 404 and 401 checks for comment `"b"`, but the splice removes `c1` — the
caller's first comment — so the persisted comments array is `[c2]` and the
entry whose identifier equals the path parameter survives.  The 404 and 401
branches themselves behave as claimed. -/
theorem delete_comment_wrong_entry_removed :
    deleteCommentRoute
        { id := "p1", user := "u0", text := "t", name := "n", avatar := "a",
          likes := [],
          comments := [⟨"a", "u1", "first", "n1", "av1"⟩,
                       ⟨"b", "u1", "second", "n1", "av1"⟩] } "u1" "b" =
      (.commentsList [⟨"b", "u1", "second", "n1", "av1"⟩],
        { id := "p1", user := "u0", text := "t", name := "n", avatar := "a",
          likes := [],
          comments := [⟨"b", "u1", "second", "n1", "av1"⟩] }) ∧
    deleteCommentRoute
        { id := "p1", user := "u0", text := "t", name := "n", avatar := "a",
          likes := [],
          comments := [⟨"a", "u1", "first", "n1", "av1"⟩] } "u1" "b" =
      (.err 404 "Comment does not exist",
        { id := "p1", user := "u0", text := "t", name := "n", avatar := "a",
          likes := [],
          comments := [⟨"a", "u1", "first", "n1", "av1"⟩] }) ∧
    deleteCommentRoute
        { id := "p1", user := "u0", text := "t", name := "n", avatar := "a",
          likes := [],
          comments := [⟨"a", "u1", "first", "n1", "av1"⟩] } "u2" "a" =
      (.err 401 "User is not authorized",
        { id := "p1", user := "u0", text := "t", name := "n", avatar := "a",
          likes := [],
          comments := [⟨"a", "u1", "first", "n1", "av1"⟩] }) := by
  refine ⟨?_, ?_, ?_⟩ <;> rfl

/-! ### Post deletion (`DELETE api/posts/:id`) -/

/-- Responses sent by the post-deletion handler. -/
inductive DeletePostResp where
  | err (status : Nat) (msg : String)
  | okMsg (msg : String)
  deriving DecidableEq

/-- `Post.findById` over the post store, modelled as first match by id. -/
def findPostById (store : List Post) (post_id : String) : Option Post :=
  store.find? (fun post => post.id == post_id)

/-- `DELETE api/posts/:id`: 404 `'Post not found'` when no post matches,
401 `'User is not authorized'` when the caller is not the post's author
(store untouched), and otherwise `post.remove()` deletes the found document
and the handler responds `{ msg: 'Post removed' }`. -/
def deletePostRoute (store : List Post) (post_id caller : String) :
    DeletePostResp × List Post :=
  match findPostById store post_id with
  | none => (.err 404 "Post not found", store)
  | some post =>
    if post.user != caller then (.err 401 "User is not authorized", store)
    else (.okMsg "Post removed", store.eraseP (fun q => q.id == post.id))

/-- C8: deleting an absent post id responds 404 and changes nothing; deleting
another user's post responds 401 and the post remains in the store unchanged;
deleting one's own post removes the found document — with unique post ids, no
post with the deleted id remains. -/
theorem delete_post_route_spec (store : List Post) (post_id caller : String) :
    (findPostById store post_id = none →
      deletePostRoute store post_id caller = (.err 404 "Post not found", store)) ∧
    (∀ post, findPostById store post_id = some post → post.user ≠ caller →
      deletePostRoute store post_id caller = (.err 401 "User is not authorized", store) ∧
      post ∈ (deletePostRoute store post_id caller).2) ∧
    (∀ post, findPostById store post_id = some post → post.user = caller →
      (deletePostRoute store post_id caller).1 = .okMsg "Post removed" ∧
      (deletePostRoute store post_id caller).2 = store.eraseP (fun q => q.id == post.id) ∧
      ((store.map Post.id).Nodup →
        ∀ q ∈ (deletePostRoute store post_id caller).2, q.id ≠ post_id)) := by
  refine ⟨?_, ?_, ?_⟩
  · intro hnone
    simp [deletePostRoute, hnone]
  · intro post hfind hne
    have hbne : (post.user != caller) = true := by simpa using hne
    constructor
    · simp [deletePostRoute, hfind, hbne]
    · simp only [deletePostRoute, hfind, hbne, if_true]
      exact List.mem_of_find?_eq_some hfind
  · intro post hfind heq
    have hbne : (post.user != caller) = false := by simp [heq]
    have hid : post.id = post_id := by
      have := List.find?_some hfind
      simpa using this
    refine ⟨by simp [deletePostRoute, hfind, hbne], by simp [deletePostRoute, hfind, hbne], ?_⟩
    intro hnodup q hq hqid
    simp only [deletePostRoute, hfind, hbne, Bool.false_eq_true, if_false] at hq
    rw [hid, eraseP_eq_filter_of_nodup Post.id store post_id hnodup] at hq
    have := List.of_mem_filter hq
    simp [hqid] at this

/-- Witness for C8 at a concrete store: 404 on an absent id, 401 for a
non-author with the post still present, and author deletion leaving no post
with the deleted id. -/
theorem delete_post_route_spec_witness :
    deletePostRoute [{ id := "p1", user := "u1", text := "t", name := "n",
                       avatar := "a", likes := [], comments := [] }] "p9" "u1" =
      (.err 404 "Post not found",
        [{ id := "p1", user := "u1", text := "t", name := "n",
           avatar := "a", likes := [], comments := [] }]) ∧
    (deletePostRoute [{ id := "p1", user := "u1", text := "t", name := "n",
                        avatar := "a", likes := [], comments := [] }] "p1" "u2" =
      (.err 401 "User is not authorized",
        [{ id := "p1", user := "u1", text := "t", name := "n",
           avatar := "a", likes := [], comments := [] }]) ∧
      { id := "p1", user := "u1", text := "t", name := "n",
        avatar := "a", likes := [], comments := [] } ∈
        (deletePostRoute [{ id := "p1", user := "u1", text := "t", name := "n",
                            avatar := "a", likes := [], comments := [] }] "p1" "u2").2) ∧
    (∀ q ∈ (deletePostRoute [{ id := "p1", user := "u1", text := "t", name := "n",
                               avatar := "a", likes := [], comments := [] }] "p1" "u1").2,
      q.id ≠ "p1") := by
  refine ⟨?_, ?_, ?_⟩
  · exact (delete_post_route_spec _ "p9" "u1").1 (by decide)
  · exact (delete_post_route_spec _ "p1" "u2").2.1
      { id := "p1", user := "u1", text := "t", name := "n",
        avatar := "a", likes := [], comments := [] } (by decide) (by decide)
  · exact ((delete_post_route_spec _ "p1" "u1").2.2
      { id := "p1", user := "u1", text := "t", name := "n",
        avatar := "a", likes := [], comments := [] } (by decide) rfl).2.2 (by decide)

/-! ### Validation-failure response bodies (C6) -/

/-- JavaScript values occurring in a body handed to `res.json(...)`: strings,
arrays, objects, and function values (a bare method reference such as
`errors.array`, written without the call parentheses, is a function value). -/
inductive JsVal where
  | str (s : String)
  | arr (elems : List JsVal)
  | obj (fields : List (String × JsVal))
  | fn

/-- JSON serialization of an object's fields as `res.json` performs it:
a field whose value is a function is dropped from the output. -/
def serializeObjFields : List (String × JsVal) → List (String × JsVal)
  | [] => []
  | (_, .fn) :: rest => serializeObjFields rest
  | (key, v) :: rest => (key, v) :: serializeObjFields rest

/-- JSON serialization of a response body, to the depth the routes use
(top-level object fields). -/
def serializeBody : JsVal → JsVal
  | .obj fields => .obj (serializeObjFields fields)
  | v => v

/-- The express-validator result for a request: the field-level message of
each failed check (e.g. `'Title is required'` when `title` is missing or
empty).  `errors.array()` returns these as an array of error objects. -/
structure ValidationErrors where
  failed : List String
  deriving DecidableEq

/-- The value of `errors.array()`: the array of field-level error objects. -/
def ValidationErrors.array (errors : ValidationErrors) : JsVal :=
  .arr (errors.failed.map (fun msg => .obj [("msg", .str msg)]))

/-- Validation-failure body of `POST api/posts`, `POST api/posts/comment/:id`
and `POST api/profile`: `res.status(400).json({ errors: errors.array() })`. -/
def postsValidationFailureBody (errors : ValidationErrors) : JsVal :=
  .obj [("errors", errors.array)]

/-- Validation-failure body of `PUT api/profile/experience` and
`PUT api/profile/education`: `res.status(400).json({ errors: errors.array })`
— the `array` method is not called, so the field's value is the function
itself. -/
def experienceValidationFailureBody (_errors : ValidationErrors) : JsVal :=
  .obj [("errors", .fn)]

/-- C6 at the failing input: on `PUT api/profile/experience` (and education)
with a missing required field, the serialized 400 body is the empty object —
the uncalled `errors.array` method is dropped by JSON serialization, so no
field-level error messages reach the client; the post/comment/profile-upsert
routes, which call `errors.array()`, do serialize the structured list. -/
theorem experience_validation_body_has_no_errors :
    serializeBody (experienceValidationFailureBody ⟨["Title is required"]⟩) = .obj [] ∧
    serializeBody (postsValidationFailureBody ⟨["Text is required"]⟩) =
      .obj [("errors", .arr [.obj [("msg", .str "Text is required")]])] :=
  ⟨rfl, rfl⟩

/-! ### Exception paths of the like/unlike handlers (C7) -/

/-- Outcome of an Express handler for one request: a response was sent, or an
exception escaped the handler and no response is sent at all. -/
inductive HandlerOutcome (ρ : Type) where
  | response (resp : ρ)
  | unhandled (error : String)
  deriving DecidableEq

/-- Outcome of `Post.findById(req.params.id)` inside the try block: the post,
or a thrown error carrying its `kind` (a malformed id throws a CastError whose
kind is `'ObjectId'`). -/
inductive FindPostOutcome where
  | found (post : Post)
  | thrown (kind : String)
  deriving DecidableEq

/-- `PUT api/posts/like/:id` including its catch block.  The catch clause
binds the exception as `error`, but the block reads `err.message` and
`err.kind` and no `err` is in scope, so evaluating the block raises a
ReferenceError before `res.status(404)` or `res.status(500)` runs: when the
try block throws, the handler sends no response at all. -/
def likeRouteFull (outcome : FindPostOutcome) (caller : String) :
    HandlerOutcome LikesResp :=
  match outcome with
  | .found post => .response (likeRoute post caller).1
  | .thrown _kind => .unhandled "ReferenceError: err is not defined"

/-- `PUT api/posts/unlike/:id` including its catch block, which has the same
`catch (error)` / `err.message` mismatch as the like handler. -/
def unlikeRouteFull (outcome : FindPostOutcome) (caller : String) :
    HandlerOutcome LikesResp :=
  match outcome with
  | .found post => .response (unlikeRoute post caller).1
  | .thrown _kind => .unhandled "ReferenceError: err is not defined"

/-- C7 at the failing input: when the like or unlike try block throws (for
example a CastError of kind `'ObjectId'` from a malformed post id), the
handler's outcome is an escaped ReferenceError — no 500 `'Server error'`
response (nor any other) is sent, because the catch block dereferences the
undeclared variable `err`. -/
theorem like_unlike_catch_sends_no_response :
    likeRouteFull (.thrown "ObjectId") "u1" =
      .unhandled "ReferenceError: err is not defined" ∧
    unlikeRouteFull (.thrown "ObjectId") "u1" =
      .unhandled "ReferenceError: err is not defined" ∧
    likeRouteFull (.thrown "SomeDbError") "u1" ≠
      .response (.badRequest "Server error") :=
  ⟨rfl, rfl, by decide⟩

/-! ### Profile lookup by user id (C10) -/

/-- Responses of `GET api/profile/user/:user_id`. -/
inductive ProfileResp where
  | err (status : Nat) (msg : String)
  | okProfile (profile : Profile)
  deriving DecidableEq

/-- Outcome of `Profile.findOne({ user: req.params.user_id })` as the route
observes it: a result (possibly null), or a thrown error carrying `err.kind`.
The driver casts `user_id` to an ObjectId first; a malformed id makes it
throw a CastError with `kind = 'ObjectId'` instead of querying, which is
abstracted by the well-formedness test `wf`. -/
def findOneProfileByUser (wf : String → Bool) (db : List Profile)
    (user_id : String) : Except String (Option Profile) :=
  if wf user_id then .ok (db.find? (fun profile => profile.user == user_id))
  else .error "ObjectId"

/-- `GET api/profile/user/:user_id`: respond 400 `'Profile not found'` when
the lookup returns null; in the catch block, respond 400 `'Profile not
found'` when `err.kind === 'ObjectId'`, and 500 `'Server error'` otherwise. -/
def getProfileByUserRoute (wf : String → Bool) (db : List Profile)
    (user_id : String) : ProfileResp :=
  match findOneProfileByUser wf db user_id with
  | .ok none => .err 400 "Profile not found"
  | .ok (some profile) => .okProfile profile
  | .error kind =>
    if kind == "ObjectId" then .err 400 "Profile not found"
    else .err 500 "Server error"

/-- C10: an id matching no profile and a malformed id get the same response —
HTTP 400 with message `'Profile not found'`; in particular the malformed-id
case produces neither a 404 nor a 500. -/
theorem get_profile_by_user_route_spec (wf : String → Bool) (db : List Profile)
    (user_id : String) :
    (wf user_id = false →
      getProfileByUserRoute wf db user_id = .err 400 "Profile not found") ∧
    (db.find? (fun profile => profile.user == user_id) = none →
      getProfileByUserRoute wf db user_id = .err 400 "Profile not found") := by
  constructor
  · intro hwf
    simp [getProfileByUserRoute, findOneProfileByUser, hwf]
  · intro hnone
    by_cases hwf : wf user_id
    · simp [getProfileByUserRoute, findOneProfileByUser, hwf, hnone]
    · simp [getProfileByUserRoute, findOneProfileByUser, hwf]

/-- Witness for C10: with a one-profile store and hex-shaped well-formedness,
the unmatched well-formed id `"bbbb"` and the malformed id `"not-an-id"` both
get 400 `'Profile not found'`. -/
theorem get_profile_by_user_route_spec_witness :
    getProfileByUserRoute (fun s => s.length == 4)
        [{ user := "aaaa", experience := [], education := [] }] "bbbb" =
      .err 400 "Profile not found" ∧
    getProfileByUserRoute (fun s => s.length == 4)
        [{ user := "aaaa", experience := [], education := [] }] "not-an-id" =
      .err 400 "Profile not found" := by
  constructor
  · exact (get_profile_by_user_route_spec (fun s => s.length == 4) _ "bbbb").2 (by decide)
  · exact (get_profile_by_user_route_spec (fun s => s.length == 4) _ "not-an-id").1 (by decide)

/-! ### Profile upsert field construction (C9) -/

/-- The whitespace characters removed by JavaScript `String.prototype.trim`
(restricted to the ASCII ones relevant here). -/
def jsIsSpace (c : Char) : Bool :=
  c = ' ' || c = '\t' || c = '\n' || c = '\r' || c = '\x0b' || c = '\x0c'

/-- JavaScript `String.prototype.split` with a one-character separator, on the
character list: `''.split(',')` is `['']`, and a trailing separator yields a
trailing empty segment. -/
def jsSplitChars (sep : Char) : List Char → List (List Char)
  | [] => [[]]
  | c :: cs =>
    match jsSplitChars sep cs with
    | [] => [[]]
    | seg :: segs => if c = sep then [] :: seg :: segs else (c :: seg) :: segs

/-- JavaScript `String.prototype.split` with a one-character separator. -/
def jsSplit (s : String) (sep : Char) : List String :=
  (jsSplitChars sep s.data).map String.mk

/-- JavaScript `String.prototype.trim`: strip whitespace from both ends. -/
def jsTrim (s : String) : String :=
  String.mk (((s.data.dropWhile jsIsSpace).reverse.dropWhile jsIsSpace).reverse)

/-- The `skills` request field: a single string or an array of strings. -/
inductive SkillsInput where
  | str (s : String)
  | arr (skills : List String)
  deriving DecidableEq

/-- The request body destructured by `POST api/profile`; absent fields are
`none`. -/
structure ProfileBody where
  company : Option String
  location : Option String
  website : Option String
  bio : Option String
  skills : SkillsInput
  status : String
  githubusername : Option String
  youtube : Option String
  twitter : Option String
  instagram : Option String
  linkedin : Option String
  facebook : Option String
  deriving DecidableEq

/-- The `socialfields` object after the normalization loop. -/
structure SocialFields where
  youtube : Option String
  twitter : Option String
  instagram : Option String
  linkedin : Option String
  facebook : Option String
  deriving DecidableEq

/-- The `profileFields` object passed to `Profile.findOneAndUpdate`. -/
structure ProfileFields where
  user : String
  company : Option String
  location : Option String
  website : String
  bio : Option String
  skills : List String
  status : String
  githubusername : Option String
  social : SocialFields
  deriving DecidableEq

/-- The `skills` field of `profileFields`: an array is kept as it is; a string
is split on commas with each segment trimmed and prefixed by one space
(`skills.split(',').map(skill => ' ' + skill.trim())`). -/
def buildSkills : SkillsInput → List String
  | .arr skills => skills
  | .str s => (jsSplit s ',').map (fun skill => " " ++ jsTrim skill)

/-- The `website` field:
`website && website !== '' ? normalize(website, { forceHttps: true }) : ''`.
The normalizer is abstracted as `normalize : String → Option String`, `none`
meaning it threw; the throw propagates (`profileFields` is built before the
handler's try/catch). -/
def buildWebsite (normalize : String → Option String) :
    Option String → Except Unit String
  | none => .ok ""
  | some s =>
    if s = "" then .ok ""
    else
      match normalize s with
      | some url => .ok url
      | none => .error ()

/-- One iteration of the socialfields loop:
`if (value && value.length > 0) socialfields[key] = normalize(value, { forceHttps: true })`;
an absent or empty value is left untouched. -/
def buildSocialField (normalize : String → Option String) :
    Option String → Except Unit (Option String)
  | none => .ok none
  | some s =>
    if s.length > 0 then
      match normalize s with
      | some url => .ok (some url)
      | none => .error ()
    else .ok (some s)

/-- The `profileFields` object built by `POST api/profile` from the caller id
and request body: website is normalized during the object literal, then the
five social fields in Object.entries order; a normalizer throw at any point
propagates out (the construction runs before the try/catch). -/
def buildProfileFields (normalize : String → Option String) (callerId : String)
    (body : ProfileBody) : Except Unit ProfileFields :=
  match buildWebsite normalize body.website with
  | .error e => .error e
  | .ok website =>
    match buildSocialField normalize body.youtube with
    | .error e => .error e
    | .ok youtube =>
      match buildSocialField normalize body.twitter with
      | .error e => .error e
      | .ok twitter =>
        match buildSocialField normalize body.instagram with
        | .error e => .error e
        | .ok instagram =>
          match buildSocialField normalize body.linkedin with
          | .error e => .error e
          | .ok linkedin =>
            match buildSocialField normalize body.facebook with
            | .error e => .error e
            | .ok facebook =>
              .ok { user := callerId, company := body.company,
                    location := body.location, website := website,
                    bio := body.bio, skills := buildSkills body.skills,
                    status := body.status,
                    githubusername := body.githubusername,
                    social := { youtube := youtube, twitter := twitter,
                                instagram := instagram, linkedin := linkedin,
                                facebook := facebook } }

/-- Sample request body for C9: `{ status: 'dev', skills: 'js, node' }` with
every other field absent. -/
def sampleProfileBody : ProfileBody :=
  { company := none, location := none, website := none, bio := none,
    skills := .str "js, node", status := "dev", githubusername := none,
    youtube := none, twitter := none, instagram := none, linkedin := none,
    facebook := none }

/-- The profileFields produced from `sampleProfileBody` for caller `"u1"`. -/
def sampleProfileFields : ProfileFields :=
  { user := "u1", company := none, location := none, website := "",
    bio := none, skills := [" js", " node"], status := "dev",
    githubusername := none,
    social := { youtube := none, twitter := none, instagram := none,
                linkedin := none, facebook := none } }

theorem buildWebsite_ok_of_empty (normalize : String → Option String)
    (w : Option String) (hw : w = none ∨ w = some "") :
    buildWebsite normalize w = .ok "" := by
  rcases hw with h | h <;> simp [buildWebsite, h]

theorem buildWebsite_ok_iff (normalize : String → Option String) (s : String)
    (hne : s ≠ "") (url : String) :
    buildWebsite normalize (some s) = .ok url ↔ normalize s = some url := by
  simp only [buildWebsite, hne, if_false]
  cases hn : normalize s with
  | none => simp
  | some u => simp

theorem buildWebsite_fail (normalize : String → Option String) (s : String)
    (hne : s ≠ "") (hn : normalize s = none) :
    buildWebsite normalize (some s) = .error () := by
  simp [buildWebsite, hne, hn]

theorem buildSocialField_none (normalize : String → Option String) :
    buildSocialField normalize none = .ok none := rfl

theorem buildSocialField_empty (normalize : String → Option String) :
    buildSocialField normalize (some "") = .ok (some "") := rfl

theorem buildSocialField_ok_iff (normalize : String → Option String)
    (s : String) (hs : 0 < s.length) (v : Option String) :
    buildSocialField normalize (some s) = .ok v ↔
      ∃ url, normalize s = some url ∧ v = some url := by
  simp only [buildSocialField, hs, if_pos]
  cases hn : normalize s with
  | none => simp
  | some u =>
    constructor
    · intro h
      injection h with h
      exact ⟨u, rfl, h.symm⟩
    · rintro ⟨url, hurl, hv⟩
      injection hurl with hurl
      rw [hv, hurl]

/-- C9 counterexample: when normalization of a non-empty website fails (the
normalizer throws on `"http://##"` here), the profileFields construction
propagates the failure instead of storing the empty string — no object with
`website == ''` is produced. -/
theorem build_profile_fields_failure_counterexample :
    buildProfileFields (fun _ => none) "u1"
      { sampleProfileBody with website := some "http://##" } = .error () := by
  rfl

/-- C9 amended: for a successful build, a skills string is split on commas
with each segment trimmed and prefixed by one leading space, a skills array is
stored as-is, the website is the empty string when absent or empty and the
normalizer's output when non-empty, and each social link is left absent when
absent, kept `''` when empty, and normalized when non-empty; when
normalization of a non-empty website fails, the exception propagates out of
the field construction (which runs before the try/catch), so no profile
fields are produced at all — the website is not stored as the empty
string. -/
theorem build_profile_fields_spec (normalize : String → Option String)
    (callerId : String) (body : ProfileBody) :
    (∀ fields, buildProfileFields normalize callerId body = .ok fields →
      fields.user = callerId ∧
      (∀ s, body.skills = .str s →
        fields.skills = (jsSplit s ',').map (fun skill => " " ++ jsTrim skill)) ∧
      (∀ skills, body.skills = .arr skills → fields.skills = skills) ∧
      ((body.website = none ∨ body.website = some "") → fields.website = "") ∧
      (∀ s, body.website = some s → s ≠ "" → normalize s = some fields.website) ∧
      (body.youtube = none → fields.social.youtube = none) ∧
      (body.youtube = some "" → fields.social.youtube = some "") ∧
      (∀ s, body.youtube = some s → 0 < s.length →
        fields.social.youtube = normalize s)) ∧
    (∀ s, body.website = some s → s ≠ "" → normalize s = none →
      buildProfileFields normalize callerId body = .error ()) := by
  constructor
  · intro fields h
    unfold buildProfileFields at h
    split at h
    · cases h
    rename_i website hweb
    split at h
    · cases h
    rename_i youtube hyt
    split at h
    · cases h
    rename_i twitter htw
    split at h
    · cases h
    rename_i instagram hin
    split at h
    · cases h
    rename_i linkedin hli
    split at h
    · cases h
    rename_i facebook hfb
    injection h with h
    subst h
    refine ⟨rfl, ?_, ?_, ?_, ?_, ?_, ?_, ?_⟩
    · intro s hs
      simp [buildSkills, hs]
    · intro skills hs
      simp [buildSkills, hs]
    · intro hw
      rw [buildWebsite_ok_of_empty normalize _ hw] at hweb
      injection hweb with hweb
      simp [hweb]
    · intro s hs hne
      rw [hs] at hweb
      exact (buildWebsite_ok_iff normalize s hne website).mp hweb
    · intro hy
      rw [hy, buildSocialField_none] at hyt
      injection hyt with hyt
      simp [hyt]
    · intro hy
      rw [hy, buildSocialField_empty] at hyt
      injection hyt with hyt
      simp [hyt]
    · intro s hy hlen
      rw [hy] at hyt
      rcases (buildSocialField_ok_iff normalize s hlen youtube).mp hyt with
        ⟨url, hurl, hv⟩
      simp [hv, hurl]
  · intro s hs hne hn
    unfold buildProfileFields
    rw [hs, buildWebsite_fail normalize s hne hn]

/-- Witness for the amended C9: with a total normalizer and body
`{ status: 'dev', skills: 'js, node' }`, the build succeeds with
`skills == [' js', ' node']` and `website == ''`. -/
theorem build_profile_fields_spec_witness :
    buildProfileFields (fun s => some ("https://" ++ s)) "u1" sampleProfileBody =
      .ok sampleProfileFields ∧
    sampleProfileFields.skills =
      (jsSplit "js, node" ',').map (fun skill => " " ++ jsTrim skill) ∧
    sampleProfileFields.website = "" := by
  have h := (build_profile_fields_spec (fun s => some ("https://" ++ s)) "u1"
    sampleProfileBody).1 sampleProfileFields rfl
  exact ⟨rfl, h.2.1 "js, node" rfl, h.2.2.2.1 (Or.inl rfl)⟩

end DevConnector
